import Mathlib

set_option maxRecDepth 100000

/-!
Shallow embedding of `src/upgradeplanner.py` (Sherpa-Base).

The program scans a project with Snyk, splits the reported vulnerability
records into fixable / unfixable, builds two AI prompts and queries the
Gemini endpoint with one bounded retry.  We embed the pure core:

* `Vuln` models one scanner record (a Python dict; every field access in
  the source goes through `dict.get`, so each field is an `Option`; the
  Python rendering of a missing value is the string "None").
* `SnykData` models the parsed JSON scan result: either a single-project
  mapping (with optional `vulnerabilities` key plus some number of other
  keys, which matters only for Python truthiness) or a monorepo list of
  per-subproject mappings, of which only the optional `vulnerabilities`
  key is ever read.
* `process_snyk_results`, `create_upgrade_prompt`,
  `create_replacement_prompt`, `get_ai_response` mirror the functions of
  the same names.  A Python expression that can raise (the `[1]` index in
  `create_upgrade_prompt`) is embedded as an `Option`, `none` meaning an
  uncaught `IndexError`.
* The remote Gemini endpoint is an oracle `Nat → CallOutcome` giving the
  outcome of the n-th `generate_content` call of one `get_ai_response`
  invocation.
* `mainAfterScan` embeds the part of `main` after the scan (lines
  151-175): the early return on a falsy scan result, the two report
  branches, the AI queries issued and the lines printed by `main`
  (progress prints inside `get_ai_response` are cosmetic per the spec and
  are not part of the print trace).
-/

/-- One vulnerability record from the scanner.  Fields are `Option`
because the source reads them with `dict.get` (default `None`). -/
structure Vuln where
  packageName : Option String
  version : Option String
  title : Option String
  severity : Option String
  upgradePath : Option (List String)
deriving DecidableEq, Repr

/-- Parsed Snyk JSON: a single-project mapping or a monorepo list.
`otherKeys` counts keys other than `vulnerabilities` in the mapping; it
only matters for Python truthiness (`if not snyk_data`).  A monorepo item
is read only through `item.get('vulnerabilities', [])`, hence
`Option (List Vuln)`. -/
inductive SnykData where
  | dict (vulnerabilities : Option (List Vuln)) (otherKeys : Nat)
  | list (items : List (Option (List Vuln)))
deriving DecidableEq, Repr

/-- Python truthiness of the scan result: a mapping is truthy iff it has
at least one key, a list iff it is non-empty. -/
def SnykData.truthy : SnykData → Bool
  | .dict v k => v.isSome || decide (0 < k)
  | .list items => decide (items ≠ [])

/-- Python `f"{x}"` rendering of an optional value: `None` prints as
the string "None". -/
def pyStr (o : Option String) : String :=
  o.getD ("None")

/-- The classifier condition of line 52:
`vuln.get('upgradePath') and len(vuln['upgradePath']) > 1`
(missing key gives `None`, falsy; an empty list is falsy too). -/
def isFixable (v : Vuln) : Bool :=
  match v.upgradePath with
  | none => false
  | some l => decide (l ≠ []) && decide (1 < l.length)

/-- One iteration of the classifying loop (lines 51-55): append the
record to the fixable or the unfixable accumulator. -/
def classifyStep (acc : List Vuln × List Vuln) (v : Vuln) : List Vuln × List Vuln :=
  if isFixable v then (acc.1 ++ [v], acc.2) else (acc.1, acc.2 ++ [v])

/-- Lines 46-49: a list input is flattened by the comprehension
`[vuln for item in snyk_data for vuln in item.get('vulnerabilities', [])]`;
a mapping input contributes `snyk_data.get('vulnerabilities', [])`. -/
def flattenVulns : SnykData → List Vuln
  | .dict v _ => v.getD []
  | .list items => items.flatMap (fun it => it.getD [])

/-- `process_snyk_results` (lines 37-57).  `none` stands for the Python
`None` that `run_snyk_scan` returns on failure; the function's own guard
(lines 42-43) returns two empty lists for any falsy input. -/
def process_snyk_results (snyk_data : Option SnykData) : List Vuln × List Vuln :=
  match snyk_data with
  | none => ([], [])
  | some d =>
    if d.truthy then (flattenVulns d).foldl classifyStep ([], []) else ([], [])

/-- The records the classifier works on (the flattened sequence; empty
for `None`). -/
def scanRecords (snyk_data : Option SnykData) : List Vuln :=
  match snyk_data with
  | none => []
  | some d => flattenVulns d

/-- One detail block of `create_upgrade_prompt` (lines 64-72).  The
Python expression `vuln.get('upgradePath', ['N/A'])[1]` raises
`IndexError` when the effective list has fewer than two elements (the
defensive default `['N/A']` has length 1, so the default itself raises);
`none` embeds that uncaught exception. -/
def upgradeDetail (v : Vuln) : Option String :=
  match (v.upgradePath.getD (["N/A"]))[1]? with
  | none => none
  | some up =>
    some ("- Package: " ++ pyStr v.packageName ++
      "\n  Current Version: " ++ pyStr v.version ++
      "\n  Suggested Upgrade: " ++ up ++
      "\n  Severity: " ++ pyStr v.severity)

/-- The fixed text of the upgrade-plan template before the detail list
(triple-quoted f-string, lines 77-82). -/
def upgradeHeader : String :=
  "\n    You are an expert software engineer. Based on the following list of vulnerabilities, create a prioritized, step-by-step upgrade plan in Markdown format. Group patch and minor updates first to minimize breaking changes.\n\n    Vulnerabilities with a direct fix:\n    "

/-- The list comprehension of lines 64-72: the detail blocks are built
left to right and the first `IndexError` aborts the whole call. -/
def upgradeDetails : List Vuln → Option (List String)
  | [] => some []
  | v :: rest =>
    match upgradeDetail v with
    | none => none
    | some s =>
      match upgradeDetails rest with
      | none => none
      | some ds => some (s :: ds)

/-- `create_upgrade_prompt` (lines 62-82). -/
def create_upgrade_prompt (vulnerabilities : List Vuln) : Option String :=
  match upgradeDetails vulnerabilities with
  | none => none
  | some ds => some (upgradeHeader ++ String.intercalate ("\n") ds ++ "\n    ")

/-- One detail block of `create_replacement_prompt` (lines 87-93); it
reads only `packageName`, `title` and `severity`. -/
def replacementDetail (v : Vuln) : String :=
  "- Package: '" ++ pyStr v.packageName ++
    "'\n  Vulnerability: " ++ pyStr v.title ++
    " (" ++ pyStr v.severity ++ " severity)"

/-- The fixed text of the replacement template before the detail list
(triple-quoted f-string, lines 98-105; the source lines end in a
trailing blank after "available." and "purpose."). -/
def replacementHeader : String :=
  "\n    You are an expert software engineer. The following open-source packages have vulnerabilities with no direct upgrade path available. \n    For each package, please infer its primary purpose from its name and suggest 1-2 popular, well-maintained alternative packages that fulfill the same purpose. \n    Provide a brief justification for each suggestion. Format the output clearly in Markdown.\n\n    Packages needing replacement:\n    "

/-- `create_replacement_prompt` (lines 85-105); total, no indexing. -/
def create_replacement_prompt (vulnerabilities : List Vuln) : String :=
  replacementHeader ++
    String.intercalate ("\n") (vulnerabilities.map replacementDetail) ++ "\n    "

/-- Outcome of one `model.generate_content` call: normal return, a
`ResourceExhausted` exception (rate limit), or any other exception.  The
carried string is the text of the response, or `str(e)` of the
exception. -/
inductive CallOutcome where
  | success (text : String)
  | rateLimit (msg : String)
  | otherError (msg : String)
deriving DecidableEq, Repr

/-- `get_ai_response` (lines 110-131), with the remote endpoint as an
oracle giving the outcome of the n-th call of this invocation.  Returns
the returned string together with the number of remote calls made.
`none`/empty prompt is falsy, short-circuiting with zero calls; a first
`ResourceExhausted` triggers the single retry; the retry's handler
catches every exception. -/
def get_ai_response (prompt : Option String) (remote : Nat → CallOutcome) : String × Nat :=
  match prompt with
  | none => ("Prompt could not be created.", 0)
  | some p =>
    if p = "" then ("Prompt could not be created.", 0)
    else
      match remote 0 with
      | .success t => (t, 1)
      | .otherError m => ("❌ An unexpected error occurred: " ++ m, 1)
      | .rateLimit _ =>
        match remote 1 with
        | .success t => (t, 2)
        | .rateLimit m => ("❌ Error on retry: " ++ m, 2)
        | .otherError m => ("❌ Error on retry: " ++ m, 2)

/-- The separator line `"=" * 50` of `main`. -/
def sep50 : String := String.mk (List.replicate 50 ('='))

/-- Notice printed when the fixable list is empty (line 165). -/
def noticeNoFixable : String :=
  "\n✅ No vulnerabilities with direct upgrade paths were found."

/-- Notice printed when the unfixable list is empty (line 175). -/
def noticeAllFixable : String :=
  "\n✅ All found vulnerabilities seem to have a direct upgrade path."

/-- Banner of the upgrade-plan section (line 161). -/
def upgradeBanner : String := "🚀 Your AI-Generated Dependency Upgrade Plan 🚀"

/-- Banner of the replacement-suggestions section (line 171). -/
def replacementBanner : String := "🤔 AI Suggestions for Package Replacements 🤔"

/-- The tail of `main` after `run_snyk_scan` (lines 151-175): the early
return on a falsy scan result, classification, and the two report
branches.  The result is `none` when an exception escapes (the only
possible one: `IndexError` out of `create_upgrade_prompt`), otherwise
the number of `get_ai_response` invocations issued together with the
lines `main` prints, in order.  `o1`/`o2` are the remote oracles of
the first/second `get_ai_response` invocation. -/
def mainAfterScan (snyk_results : Option SnykData) (o1 o2 : Nat → CallOutcome) :
    Option (Nat × List String) :=
  match snyk_results with
  | none => some (0, [])
  | some d =>
    if d.truthy = false then some (0, [])
    else
      let fu := process_snyk_results (some d)
      let fixSection : Option (Nat × List String) :=
        if fu.1 ≠ [] then
          match create_upgrade_prompt fu.1 with
          | none => none
          | some p =>
            some (1, ["\n" ++ sep50, upgradeBanner, sep50 ++ "\n",
              (get_ai_response (some p) o1).1])
        else some (0, [noticeNoFixable])
      match fixSection with
      | none => none
      | some fs =>
        let unfixSection : Nat × List String :=
          if fu.2 ≠ [] then
            (1, ["\n" ++ sep50, replacementBanner, sep50 ++ "\n",
              (get_ai_response (some (create_replacement_prompt fu.2)) o2).1])
          else (0, [noticeAllFixable])
        some (fs.1 + unfixSection.1, fs.2 ++ unfixSection.2)

/-- A remote oracle whose every call succeeds with a fixed text. -/
def constSuccess : Nat → CallOutcome := fun _ => CallOutcome.success ("ok")

/-- Concrete record of the spec's replacement-prompt test vector. -/
def v6 : Vuln :=
  { packageName := some ("old-lib"), version := none,
    title := some ("Prototype Pollution"), severity := some ("critical"),
    upgradePath := some [] }

/-- A record without an `upgradePath` key. -/
def vNoPath : Vuln :=
  { packageName := some ("left-pad"), version := some ("1.0.0"),
    title := some ("Regular Expression Denial of Service"),
    severity := some ("high"), upgradePath := none }

/-- A record whose `upgradePath` is present but empty. -/
def vEmptyPath : Vuln :=
  { packageName := some ("old-lib"), version := some ("0.1.0"),
    title := some ("Prototype Pollution"), severity := some ("low"),
    upgradePath := some [] }

/-- A record whose `upgradePath` has exactly one element. -/
def vOnePath : Vuln :=
  { packageName := some ("left-pad"), version := some ("1.0.0"),
    title := some ("Regular Expression Denial of Service"),
    severity := some ("high"), upgradePath := some [("left-pad@1.0.0")] }

/-- A fixable demo record (two-element upgrade path). -/
def vFixDemo : Vuln :=
  { packageName := some ("lodash"), version := some ("4.0.0"),
    title := some ("Prototype Pollution"), severity := some ("high"),
    upgradePath := some [("lodash@4.0.0"), ("lodash@4.17.21")] }

/-- A scan result with one fixable and one unfixable record. -/
def demoScan : SnykData := SnykData.dict (some [vFixDemo, vEmptyPath]) 0

/-- A truthy scan result (the `vulnerabilities` key is present) with no
vulnerabilities. -/
def emptyDictScan : SnykData := SnykData.dict (some []) 1

/-- A remote oracle whose every call raises a non-rate-limit error. -/
def oErrBoom : Nat → CallOutcome := fun _ => CallOutcome.otherError ("boom")

/-- A remote oracle that rate-limits the first call and succeeds on the
second. -/
def demoRetryOracle : Nat → CallOutcome := fun n =>
  if n = 0 then CallOutcome.rateLimit ("quota") else CallOutcome.success ("plan text")

/-! ## Helper lemmas -/

theorem flatten_of_not_truthy (d : SnykData) (h : d.truthy = false) :
    flattenVulns d = [] := by
  cases d with
  | dict v k =>
    cases v with
    | none => rfl
    | some l => simp [SnykData.truthy] at h
  | list items =>
    cases items with
    | nil => rfl
    | cons a t => simp [SnykData.truthy] at h

theorem foldl_classifyStep (vs : List Vuln) (f u : List Vuln) :
    vs.foldl classifyStep (f, u) =
      (f ++ vs.filter isFixable, u ++ vs.filter (fun v => !(isFixable v))) := by
  induction vs generalizing f u with
  | nil => simp
  | cons v rest ih =>
    cases hf : isFixable v with
    | true => simp [classifyStep, hf, ih, List.filter_cons]
    | false => simp [classifyStep, hf, ih, List.filter_cons]

theorem process_eq_filter (d : Option SnykData) :
    process_snyk_results d =
      ((scanRecords d).filter isFixable,
       (scanRecords d).filter (fun v => !(isFixable v))) := by
  cases d with
  | none => rfl
  | some x =>
    cases hx : x.truthy with
    | true =>
      simp [process_snyk_results, hx, scanRecords, foldl_classifyStep]
    | false =>
      simp [process_snyk_results, hx, scanRecords, flatten_of_not_truthy x hx]

theorem isFixable_iff (v : Vuln) :
    isFixable v = true ↔ ∃ l, v.upgradePath = some l ∧ 1 < l.length := by
  cases hu : v.upgradePath with
  | none => simp [isFixable, hu]
  | some l =>
    simp only [isFixable, hu, Bool.and_eq_true, decide_eq_true_eq,
      Option.some.injEq]
    constructor
    · rintro ⟨-, h2⟩
      exact ⟨l, rfl, h2⟩
    · rintro ⟨l', hl', h2⟩
      cases hl'
      refine ⟨?_, h2⟩
      intro he
      rw [he] at h2
      simp at h2

theorem upgradeDetail_of_fixable (v : Vuln) (h : isFixable v = true) :
    ∃ s, upgradeDetail v = some s := by
  obtain ⟨l, hl, hlen⟩ := (isFixable_iff v).mp h
  unfold upgradeDetail
  rw [hl]
  simp only [Option.getD_some]
  rw [List.getElem?_eq_getElem hlen]
  exact ⟨_, rfl⟩

theorem upgradeDetails_of_fixable (vs : List Vuln)
    (h : ∀ v ∈ vs, isFixable v = true) :
    ∃ ds, upgradeDetails vs = some ds := by
  induction vs with
  | nil => exact ⟨[], rfl⟩
  | cons a t ih =>
    obtain ⟨s, hs⟩ := upgradeDetail_of_fixable a (h a (by simp))
    obtain ⟨ds, hds⟩ := ih (fun v hv => h v (by simp [hv]))
    exact ⟨s :: ds, by simp [upgradeDetails, hs, hds]⟩

theorem header_append_ne_empty (hd x tl : String) (h : 0 < hd.length) :
    hd ++ x ++ tl ≠ "" := by
  intro he
  have hlen := congrArg String.length he
  have h0 : ("" : String).length = 0 := rfl
  simp only [String.length_append, h0] at hlen
  omega

theorem create_upgrade_prompt_shape (vs : List Vuln) (s : String)
    (h : create_upgrade_prompt vs = some s) :
    ∃ ds, upgradeDetails vs = some ds ∧
      s = upgradeHeader ++ String.intercalate ("\n") ds ++ "\n    " := by
  unfold create_upgrade_prompt at h
  cases hds : upgradeDetails vs with
  | none => rw [hds] at h; cases h
  | some ds =>
    rw [hds] at h
    injection h with h'
    exact ⟨ds, rfl, h'.symm⟩

theorem create_upgrade_prompt_of_fixable (vs : List Vuln)
    (h : ∀ v ∈ vs, isFixable v = true) :
    ∃ s, create_upgrade_prompt vs = some s ∧ s ≠ "" := by
  obtain ⟨ds, hds⟩ := upgradeDetails_of_fixable vs h
  refine ⟨upgradeHeader ++ String.intercalate ("\n") ds ++ "\n    ", ?_, ?_⟩
  · simp [create_upgrade_prompt, hds]
  · exact header_append_ne_empty _ _ _ (by decide)

theorem create_replacement_prompt_ne_empty (vs : List Vuln) :
    create_replacement_prompt vs ≠ "" :=
  header_append_ne_empty _ _ _ (by decide)

theorem get_ai_response_some (p : String) (hp : p ≠ "") (o : Nat → CallOutcome) :
    get_ai_response (some p) o =
      match o 0 with
      | .success t => (t, 1)
      | .otherError m => ("❌ An unexpected error occurred: " ++ m, 1)
      | .rateLimit _ =>
        match o 1 with
        | .success t => (t, 2)
        | .rateLimit m => ("❌ Error on retry: " ++ m, 2)
        | .otherError m => ("❌ Error on retry: " ++ m, 2) := by
  simp [get_ai_response, hp]

theorem get_ai_response_calls (p : String) (hp : p ≠ "") (o : Nat → CallOutcome) :
    1 ≤ (get_ai_response (some p) o).2 ∧ (get_ai_response (some p) o).2 ≤ 2 := by
  rw [get_ai_response_some p hp o]
  cases o 0 with
  | success t => simp
  | otherError m => simp
  | rateLimit m => cases o 1 <;> simp

/-! ## Claim theorems -/

/-- C1: classification partitions the records: the fixable/unfixable
outputs are the order-preserving filters of the flattened input by the
fixability condition, a record is fixable iff its upgrade path is
present with strictly more than one element, and every record lands in
exactly one output (counted with multiplicity). -/
theorem process_snyk_results_partitions (d : Option SnykData) :
    (process_snyk_results d).1 = (scanRecords d).filter isFixable ∧
    (process_snyk_results d).2 = (scanRecords d).filter (fun v => !(isFixable v)) ∧
    (∀ v : Vuln, isFixable v = true ↔ ∃ l, v.upgradePath = some l ∧ 1 < l.length) ∧
    (∀ v : Vuln, (process_snyk_results d).1.count v +
      (process_snyk_results d).2.count v = (scanRecords d).count v) ∧
    (process_snyk_results d).1.Sublist (scanRecords d) ∧
    (process_snyk_results d).2.Sublist (scanRecords d) := by
  have hpf := process_eq_filter d
  refine ⟨by rw [hpf], by rw [hpf], isFixable_iff, ?_, ?_, ?_⟩
  · intro v
    rw [hpf]
    have hperm := List.filter_append_perm isFixable (scanRecords d)
    have hcnt := hperm.count_eq v
    rw [List.count_append] at hcnt
    exact hcnt
  · rw [hpf]; exact List.filter_sublist _
  · rw [hpf]; exact List.filter_sublist _

/-- C2 (evaluation at the failing inputs): for a record whose upgrade
path is missing or has fewer than two elements, `create_upgrade_prompt`
does not substitute "N/A" and return a prompt; the defensive default
`['N/A']` has length 1, so `[1]` raises `IndexError` (embedded `none`)
and no prompt is produced. -/
theorem create_upgrade_prompt_indexError :
    upgradeDetail vNoPath = none ∧
    upgradeDetail vOnePath = none ∧
    create_upgrade_prompt [vNoPath] = none ∧
    create_upgrade_prompt [vOnePath] = none := by
  refine ⟨by decide, by decide, by decide, by decide⟩

/-- C4: a monorepo scan result is flattened subproject by subproject,
preserving subproject order and in-list order; in particular the
subprojects `A=[v1,v2]`, `B=[v3]` flatten to `[v1, v2, v3]`, which is
the sequence the classifier then partitions. -/
theorem process_snyk_results_flattens (items : List (Option (List Vuln)))
    (v1 v2 v3 : Vuln) :
    flattenVulns (SnykData.list items) =
      (items.map (fun it => it.getD [])).flatten ∧
    flattenVulns (SnykData.list [some [v1, v2], some [v3]]) = [v1, v2, v3] ∧
    process_snyk_results (some (SnykData.list [some [v1, v2], some [v3]])) =
      ([v1, v2, v3].filter isFixable,
       [v1, v2, v3].filter (fun v => !(isFixable v))) := by
  refine ⟨?_, ?_, ?_⟩
  · simp [flattenVulns, List.flatMap_def]
  · simp [flattenVulns]
  · rw [process_eq_filter]
    have hs : scanRecords (some (SnykData.list [some [v1, v2], some [v3]])) =
        [v1, v2, v3] := by simp [scanRecords, flattenVulns]
    rw [hs]

/-- C5: both prompt builders are pure functions of their input sequence:
equal inputs give identical results (the embedding has no state, so
determinism is equality of the two invocations' values). -/
theorem prompt_builders_deterministic (xs ys : List Vuln) (h : xs = ys) :
    create_upgrade_prompt xs = create_upgrade_prompt ys ∧
    create_replacement_prompt xs = create_replacement_prompt ys := by
  subst h
  exact ⟨rfl, rfl⟩

/-- Witness for C5 at a concrete input. -/
theorem prompt_builders_deterministic_witness :
    create_upgrade_prompt [vFixDemo] = create_upgrade_prompt [vFixDemo] ∧
    create_replacement_prompt [vFixDemo] = create_replacement_prompt [vFixDemo] :=
  prompt_builders_deterministic [vFixDemo] [vFixDemo] rfl

/-- C6: on the single record with package "old-lib", title "Prototype
Pollution", severity "critical" and an empty upgrade path, the
replacement prompt contains the three literals; moreover the builder
never reads the upgrade path of any record (its output is invariant
under arbitrary changes to every record's upgrade path). -/
theorem create_replacement_prompt_literals :
    (("old-lib").data <:+: (create_replacement_prompt [v6]).data) ∧
    (("Prototype Pollution").data <:+: (create_replacement_prompt [v6]).data) ∧
    (("critical").data <:+: (create_replacement_prompt [v6]).data) ∧
    (∀ (vs : List Vuln) (g : Vuln → Option (List String)),
      create_replacement_prompt (vs.map (fun v => { v with upgradePath := g v })) =
        create_replacement_prompt vs) := by
  refine ⟨by decide, by decide, by decide, ?_⟩
  intro vs g
  simp only [create_replacement_prompt, List.map_map]
  rw [show (replacementDetail ∘ fun v => { v with upgradePath := g v }) =
    replacementDetail from funext fun v => rfl]

/-- C7: a falsy (absent or empty) prompt short-circuits: the fixed
result "Prompt could not be created." is returned and zero remote
calls are made. -/
theorem get_ai_response_falsy_prompt (o : Nat → CallOutcome) :
    get_ai_response none o = ("Prompt could not be created.", 0) ∧
    get_ai_response (some ("")) o = ("Prompt could not be created.", 0) := by
  exact ⟨rfl, by simp [get_ai_response]⟩

/-- Counterexample to C10 as stated: at the one-record input with an
empty upgrade path, `create_upgrade_prompt` returns no string at all
(the `[1]` index raises `IndexError`). -/
theorem create_upgrade_prompt_not_total :
    create_upgrade_prompt [vEmptyPath] = none ∧
    (∀ s : String, ¬ create_upgrade_prompt [vEmptyPath] = some s) := by
  refine ⟨by decide, ?_⟩
  intro s hs
  rw [show create_upgrade_prompt [vEmptyPath] = none from by decide] at hs
  cases hs

/-- C10 (amended): the replacement prompt is always a non-empty string;
the upgrade prompt, whenever it returns at all (in particular on every
all-fixable sequence, the only sequences `main` passes it), is a
non-empty string; consequently the "Prompt could not be created."
short-circuit (the zero-call branch) is never taken on a prompt built
by either builder: at least one remote call is always made. -/
theorem prompts_nonempty (vs : List Vuln) :
    create_replacement_prompt vs ≠ "" ∧
    (∀ s, create_upgrade_prompt vs = some s → s ≠ "") ∧
    ((∀ v ∈ vs, isFixable v = true) →
      ∃ s, create_upgrade_prompt vs = some s ∧ s ≠ "") ∧
    (∀ s, create_upgrade_prompt vs = some s →
      ∀ o : Nat → CallOutcome, 1 ≤ (get_ai_response (some s) o).2) ∧
    (∀ o : Nat → CallOutcome,
      1 ≤ (get_ai_response (some (create_replacement_prompt vs)) o).2) := by
  refine ⟨create_replacement_prompt_ne_empty vs, ?_,
    create_upgrade_prompt_of_fixable vs, ?_, ?_⟩
  · intro s hs
    obtain ⟨ds, -, hform⟩ := create_upgrade_prompt_shape vs s hs
    rw [hform]
    exact header_append_ne_empty _ _ _ (by decide)
  · intro s hs o
    obtain ⟨ds, -, hform⟩ := create_upgrade_prompt_shape vs s hs
    have hne : s ≠ "" := by
      rw [hform]
      exact header_append_ne_empty _ _ _ (by decide)
    exact (get_ai_response_calls s hne o).1
  · exact fun o => (get_ai_response_calls _ (create_replacement_prompt_ne_empty vs) o).1

/-- Witness for C10's amended theorem at a concrete all-fixable input. -/
theorem prompts_nonempty_witness :
    ∃ s, create_upgrade_prompt [vFixDemo] = some s ∧ s ≠ "" :=
  (prompts_nonempty [vFixDemo]).2.2.1 (by decide)

/-- C3: for a non-empty prompt the client makes at most two remote
calls; a first-call success returns it with one call (no retry); a
first-call rate limit followed by a success returns the success text
with exactly two calls; a rate limit followed by any second failure
returns the retry-error description with exactly two calls; any
non-rate-limit first failure returns the error description with
exactly one call. -/
theorem get_ai_response_retry_policy (p : String) (hp : p ≠ "")
    (o : Nat → CallOutcome) :
    (get_ai_response (some p) o).2 ≤ 2 ∧
    (∀ t, o 0 = CallOutcome.success t →
      get_ai_response (some p) o = (t, 1)) ∧
    (∀ m t, o 0 = CallOutcome.rateLimit m → o 1 = CallOutcome.success t →
      get_ai_response (some p) o = (t, 2)) ∧
    (∀ m m2, o 0 = CallOutcome.rateLimit m →
      (o 1 = CallOutcome.rateLimit m2 ∨ o 1 = CallOutcome.otherError m2) →
      get_ai_response (some p) o = ("❌ Error on retry: " ++ m2, 2)) ∧
    (∀ m, o 0 = CallOutcome.otherError m →
      get_ai_response (some p) o = ("❌ An unexpected error occurred: " ++ m, 1)) := by
  refine ⟨(get_ai_response_calls p hp o).2, ?_, ?_, ?_, ?_⟩
  · intro t h0
    rw [get_ai_response_some p hp o, h0]
  · intro m t h0 h1
    rw [get_ai_response_some p hp o, h0, h1]
  · intro m m2 h0 h1
    rw [get_ai_response_some p hp o, h0]
    rcases h1 with h1 | h1 <;> rw [h1]
  · intro m h0
    rw [get_ai_response_some p hp o, h0]

/-- Witness for C3: a rate-limited first call and a successful second
call yield the success text with exactly two remote calls. -/
theorem get_ai_response_retry_policy_witness :
    get_ai_response (some ("hello")) demoRetryOracle = (("plan text"), 2) :=
  (get_ai_response_retry_policy ("hello") (by decide) demoRetryOracle).2.2.1
    ("quota") ("plan text") rfl rfl

/-- Counterexample to C8 as stated: the empty monorepo list is a scan
result containing no vulnerabilities, yet `main` (its `if not
snyk_results: return` guard, line 152) returns early and prints
neither "none found" notice. -/
theorem main_empty_scan_counterexample :
    scanRecords (some (SnykData.list [])) = [] ∧
    mainAfterScan (some (SnykData.list [])) constSuccess constSuccess =
      some (0, []) ∧
    ([] : List String) ≠ [noticeNoFixable, noticeAllFixable] := by
  refine ⟨rfl, by decide, by decide⟩

/-- C8 (amended): for every truthy scan result (a non-empty mapping or
list) containing no vulnerabilities, classification yields two empty
sequences and `main` issues zero AI queries and prints exactly the two
"none found" notices; a falsy (empty) scan result still triggers zero
queries but returns early without the notices. -/
theorem main_empty_scan_notices (d : SnykData) (o1 o2 : Nat → CallOutcome)
    (ht : d.truthy = true) (hv : scanRecords (some d) = []) :
    process_snyk_results (some d) = ([], []) ∧
    mainAfterScan (some d) o1 o2 =
      some (0, [noticeNoFixable, noticeAllFixable]) := by
  have hp : process_snyk_results (some d) = ([], []) := by
    rw [process_eq_filter, hv]
    rfl
  refine ⟨hp, ?_⟩
  simp [mainAfterScan, ht, hp]

/-- Witness for C8's amended theorem: a truthy single-project scan
result whose vulnerability list is empty. -/
theorem main_empty_scan_notices_witness :
    mainAfterScan (some emptyDictScan) constSuccess constSuccess =
      some (0, [noticeNoFixable, noticeAllFixable]) :=
  (main_empty_scan_notices emptyDictScan constSuccess constSuccess rfl rfl).2

/-- C9: a non-rate-limit AI failure is returned by `get_ai_response` as
an error-description string (never an exception); in `main`, when both
report branches are non-empty, a failing upgrade-plan query does not
prevent the replacement-suggestions query (both are issued, two
`get_ai_response` invocations in total) and vice versa, and the error
string is printed exactly where the generated content would have
appeared. -/
theorem ai_failure_isolated (d : SnykData) (o1 o2 : Nat → CallOutcome)
    (m : String)
    (hfix : (process_snyk_results (some d)).1 ≠ [])
    (hunfix : (process_snyk_results (some d)).2 ≠ []) :
    (∀ (p : String), p ≠ "" → ∀ o : Nat → CallOutcome,
      o 0 = CallOutcome.otherError m →
      get_ai_response (some p) o =
        ("❌ An unexpected error occurred: " ++ m, 1)) ∧
    (o1 0 = CallOutcome.otherError m →
      mainAfterScan (some d) o1 o2 =
        some (2, ["\n" ++ sep50, upgradeBanner, sep50 ++ "\n",
          "❌ An unexpected error occurred: " ++ m,
          "\n" ++ sep50, replacementBanner, sep50 ++ "\n",
          (get_ai_response (some (create_replacement_prompt
            (process_snyk_results (some d)).2)) o2).1])) ∧
    (o2 0 = CallOutcome.otherError m →
      ∃ p, create_upgrade_prompt (process_snyk_results (some d)).1 = some p ∧
        mainAfterScan (some d) o1 o2 =
          some (2, ["\n" ++ sep50, upgradeBanner, sep50 ++ "\n",
            (get_ai_response (some p) o1).1,
            "\n" ++ sep50, replacementBanner, sep50 ++ "\n",
            "❌ An unexpected error occurred: " ++ m])) := by
  have ht : d.truthy = true := by
    by_contra hne
    rw [Bool.not_eq_true] at hne
    apply hfix
    simp [process_snyk_results, hne]
  have hallfix : ∀ v ∈ (process_snyk_results (some d)).1, isFixable v = true := by
    intro v hv
    rw [process_eq_filter] at hv
    exact (List.mem_filter.mp hv).2
  obtain ⟨P, hP, hPne⟩ := create_upgrade_prompt_of_fixable _ hallfix
  have hRne := create_replacement_prompt_ne_empty (process_snyk_results (some d)).2
  refine ⟨?_, ?_, ?_⟩
  · intro p hp o h0
    rw [get_ai_response_some p hp o, h0]
  · intro h1
    have hg1 : get_ai_response (some P) o1 =
        ("❌ An unexpected error occurred: " ++ m, 1) := by
      rw [get_ai_response_some P hPne o1, h1]
    simp [mainAfterScan, ht, hfix, hunfix, hP, hg1]
  · intro h2
    have hg2 : get_ai_response (some (create_replacement_prompt
        (process_snyk_results (some d)).2)) o2 =
        ("❌ An unexpected error occurred: " ++ m, 1) := by
      rw [get_ai_response_some _ hRne o2, h2]
    refine ⟨P, hP, ?_⟩
    simp [mainAfterScan, ht, hfix, hunfix, hP, hg2]

/-- Witness for C9: one fixable and one unfixable record, the first
query failing with a non-rate-limit error, the second succeeding. -/
theorem ai_failure_isolated_witness :
    mainAfterScan (some demoScan) oErrBoom constSuccess =
      some (2, ["\n" ++ sep50, upgradeBanner, sep50 ++ "\n",
        "❌ An unexpected error occurred: " ++ "boom",
        "\n" ++ sep50, replacementBanner, sep50 ++ "\n",
        (get_ai_response (some (create_replacement_prompt
          (process_snyk_results (some demoScan)).2)) constSuccess).1]) :=
  (ai_failure_isolated demoScan oErrBoom constSuccess ("boom")
    (by decide) (by decide)).2.1 rfl
